import Mathlib

/-!
Verification development for the rs-server authentication backend.

The definitions below are a shallow embedding of the Rust sources:
  * src/app/error.rs            (error taxonomy)
  * src/utils/validation.rs     (username validation)
  * src/auth/dto/request.rs     (request validation)
  * src/auth/jwt/service.rs     (key construction, blacklist TTL, token issuance)
  * src/auth/jwt/claims.rs      (refresh-token validation order)
  * src/auth/repo.rs            (user / session / registration repository operations)
  * src/auth/queries.rs         (SQL join predicates)
  * src/auth/service.rs         (refresh rotation, logout, finish flows, session cleanup)

Conventions of the embedding: UUIDs are modelled as Nat; random jti generation is
modelled by a fresh counter (a jti never handed out before differs from all previous
ones, which is the property random UUIDs provide); timestamps are Int seconds;
byte strings are lists of Nat; external primitives (the JWT signing library, the
WebAuthn ceremony engine, PostgreSQL transaction semantics, Redis SET EX / EXISTS
semantics) are modelled at their documented interface contracts, and fallible
external steps appear as explicit Except-valued parameters.
-/

namespace RsServer

/-- Error taxonomy (src/app/error.rs, enum AppError). -/
inductive AppError where
  | internalServer (msg : String)
  | notFound (msg : String)
  | alreadyExists (msg : String)
  | unauthorized (msg : String)
  | badRequest (msg : String)
  | serviceUnavailable (msg : String)
  | circuitBreakerOpen (msg : String)
deriving Repr, DecidableEq

/-- Whether an Except value is a success. -/
def exceptIsOk {ε α : Type} : Except ε α → Bool
  | .ok _ => true
  | .error _ => false

/-! ## Username validation (src/utils/validation.rs) -/

/-- Rust char::is_whitespace: the Unicode White_Space property, by code point. -/
def isRustWhitespace (c : Char) : Bool :=
  let n := c.toNat
  n == 0x09 || n == 0x0A || n == 0x0B || n == 0x0C || n == 0x0D || n == 0x20 ||
  n == 0x85 || n == 0xA0 || n == 0x1680 ||
  (0x2000 ≤ n && n ≤ 0x200A) || n == 0x2028 || n == 0x2029 ||
  n == 0x202F || n == 0x205F || n == 0x3000

/-- Rust str::trim: strip leading and trailing whitespace characters. -/
def rustTrim (s : List Char) : List Char :=
  ((s.dropWhile isRustWhitespace).reverse.dropWhile isRustWhitespace).reverse

/-- Rust str::len: length of the UTF-8 encoding in bytes. -/
def byteLen (s : List Char) : Nat :=
  (s.map Char.utf8Size).sum

/-- Number of non-whitespace characters of a string (the quantity the spec
sentence about minimum username length speaks of). -/
def countNonWhitespace (s : List Char) : Nat :=
  (s.filter (fun c => !isRustWhitespace c)).length

/-- validate_text (src/utils/validation.rs lines 46-51). -/
def validateText (text : List Char) (field : String) : Except AppError Unit :=
  if (rustTrim text).isEmpty then
    .error (.badRequest (field ++ " cannot be empty"))
  else
    .ok ()

/-- validate_username (src/utils/validation.rs lines 54-64): validate_text, then
reject when the trimmed byte length is below 3. -/
def validateUsername (username : List Char) : Except AppError Unit :=
  match validateText username "Username" with
  | .error e => .error e
  | .ok _ =>
    if byteLen (rustTrim username) < 3 then
      .error (.badRequest "Username must be at least 3 characters")
    else
      .ok ()

/-- BeginRequest (src/auth/dto/request.rs lines 10-16). -/
structure BeginRequest where
  username : List Char
  role : Option String

/-- BeginRequest::validate (src/auth/dto/request.rs lines 18-23). -/
def BeginRequest.validate (r : BeginRequest) : Except AppError Unit :=
  validateUsername r.username

/-! ## Token service key material (src/auth/jwt/service.rs, Jwt::new) -/

/-- The key material held by the token service after startup: the Ed25519 seed
used to build the access-token signing key pair, and the HMAC secret used for
refresh tokens. -/
structure JwtKeys where
  accessSigningSeed : List Nat
  refreshSecret : List Nat
deriving Repr, DecidableEq

/-- The 32-byte buffer built in Jwt::new (src/auth/jwt/service.rs lines 49-52):
a zero-filled 32-byte array whose first min(len, 32) bytes are copied from the
secret. -/
def jwtSymmetricKey (secret : List Nat) : List Nat :=
  secret.take 32 ++ List.replicate (32 - min secret.length 32) 0

/-- Jwt::new (src/auth/jwt/service.rs lines 43-76), restricted to key
construction: panics (None) when the JWT_SECRET_KEY is shorter than 32 bytes;
otherwise the Ed25519 signing key is built from the same 32-byte buffer that is
installed as the HS256 secret for refresh tokens. -/
def jwtNew (secret : List Nat) : Option JwtKeys :=
  if secret.length < 32 then
    none
  else
    let key := jwtSymmetricKey secret
    some { accessSigningSeed := key, refreshSecret := key }

/-! ## Blacklist TTL (src/auth/jwt/service.rs, Jwt::blacklist) -/

/-- The TTL computed by Jwt::blacklist (src/auth/jwt/service.rs line 171):
if exp - now <= 0 then 1 else exp. -/
def blacklistTtl (exp now : Int) : Int :=
  if exp - now ≤ 0 then 1 else exp

/-! ## Token model (src/auth/jwt/claims.rs, src/auth/jwt/service.rs) -/

/-- RefreshTokenClaims (src/auth/jwt/claims.rs lines 53-62); the jti is a
freshly generated token identifier, modelled as a Nat. -/
structure RefreshTokenClaims where
  sub : Nat
  username : String
  role : Option String
  jti : Nat
  iat : Int
  exp : Int
deriving Repr, DecidableEq

/-- AccessTokenClaims (src/auth/jwt/claims.rs lines 14-22). -/
structure AccessTokenClaims where
  sub : Nat
  username : String
  role : Option String
  iat : Int
  exp : Int
deriving Repr, DecidableEq

/-- A presented refresh-token string, modelled at the contract boundary of the
signing library: it is empty, fails signature verification, or carries a valid
signature over some claims minted by this service. -/
inductive RefreshToken where
  | empty
  | malformed
  | signed (c : RefreshTokenClaims)
deriving Repr, DecidableEq

/-- Default leeway of the JWT validation settings used by
Validation::new (jsonwebtoken), in seconds. -/
def jwtLeeway : Int := 60

/-- Contract of jsonwebtoken decode with Validation::new(HS256): reject a
missing or badly signed token, reject an expired token (exp < now - leeway),
otherwise return the embedded claims. -/
def decodeRefresh (now : Int) : RefreshToken → Except AppError RefreshTokenClaims
  | .signed c =>
    if c.exp < now - jwtLeeway then .error (.unauthorized "ExpiredSignature")
    else .ok c
  | _ => .error (.unauthorized "InvalidToken")

/-- State of the Redis revocation store: live entries as (jti, absolute expiry
instant) pairs. -/
structure RedisState where
  blacklist : List (Nat × Int)
deriving Repr, DecidableEq

/-- Redis EXISTS on the blacklist key of a jti (Jwt::is_blacklisted,
src/auth/jwt/service.rs lines 183-194): a key exists while its TTL has not yet
elapsed. -/
def isBlacklistedAt (s : RedisState) (now : Int) (jti : Nat) : Bool :=
  s.blacklist.any (fun e => e.1 == jti && now < e.2)

/-- Redis SET EX: (over)write the key with a fresh TTL. -/
def redisSetEx (s : RedisState) (jti : Nat) (expireAt : Int) : RedisState :=
  { blacklist := (jti, expireAt) :: s.blacklist.filter (fun e => e.1 != jti) }

/-- Jwt::blacklist (src/auth/jwt/service.rs lines 168-181): SET EX with the TTL
computed by blacklistTtl. -/
def blacklistJti (s : RedisState) (now : Int) (jti : Nat) (exp : Int) : RedisState :=
  redisSetEx s jti (now + blacklistTtl exp now)

/-- RefreshTokenClaims::validate (src/auth/jwt/claims.rs lines 79-89): decode
(signature and expiry) first, then reject when the jti is blacklisted. -/
def validateRefresh (s : RedisState) (now : Int) (t : RefreshToken) :
    Except AppError RefreshTokenClaims :=
  match decodeRefresh now t with
  | .error e => .error e
  | .ok c =>
    if isBlacklistedAt s now c.jti then
      .error (.unauthorized "Token has been revoked")
    else
      .ok c

/-- TokenPair (src/auth/jwt/service.rs lines 27-30); tokens are modelled by
their signed claims since encoding is the external signing primitive. -/
structure TokenPair where
  accessToken : AccessTokenClaims
  refreshToken : RefreshToken
deriving Repr, DecidableEq

/-- Full token-service state: the revocation store plus the fresh-jti counter
modelling random jti generation. -/
structure JwtState where
  redis : RedisState
  nextJti : Nat
deriving Repr, DecidableEq

/-- ACCESS_TOKEN_DURATION (src/auth/jwt/service.rs line 23), seconds. -/
def accessTokenDuration : Int := 5 * 60

/-- REFRESH_TOKEN_DURATION (src/auth/jwt/service.rs line 24), seconds. -/
def refreshTokenDuration : Int := 24 * 60 * 60

/-- Jwt::generate_token_pair (src/auth/jwt/service.rs lines 139-158): build
both claim sets from the current time and the fixed durations; the refresh
claims get a fresh jti. -/
def generateTokenPair (st : JwtState) (now : Int) (sub : Nat) (username : String)
    (role : Option String) : TokenPair × JwtState :=
  ({ accessToken :=
       { sub := sub, username := username, role := role, iat := now,
         exp := now + accessTokenDuration },
     refreshToken :=
       .signed
         { sub := sub, username := username, role := role, jti := st.nextJti,
           iat := now, exp := now + refreshTokenDuration } },
   { st with nextJti := st.nextJti + 1 })

/-- AuthService::refresh (src/auth/service.rs lines 151-169): validate the old
refresh token, blacklist its jti, mint a brand-new pair from the validated
claims. -/
def refresh (st : JwtState) (now : Int) (t : RefreshToken) :
    Except AppError (TokenPair × JwtState) :=
  match validateRefresh st.redis now t with
  | .error e => .error e
  | .ok c =>
    let redis2 := blacklistJti st.redis now c.jti c.exp
    let (pair, st2) := generateTokenPair { st with redis := redis2 } now c.sub c.username c.role
    .ok (pair, st2)

/-- AuthService::logout (src/auth/service.rs lines 171-183). The Bool input
injects a possible failure of the revocation write; the Bool output records
whether a revocation write was issued. -/
def logout (st : JwtState) (now : Int) (t : RefreshToken) (blacklistWriteFails : Bool) :
    Except AppError String × JwtState × Bool :=
  if t == .empty then
    (.ok "Logout completed successfully!", st, false)
  else
    match validateRefresh st.redis now t with
    | .error _ => (.ok "Logout completed successfully!", st, false)
    | .ok c =>
      if blacklistWriteFails then
        (.ok "Logout completed successfully!", st, true)
      else
        (.ok "Logout completed successfully!",
         { st with redis := blacklistJti st.redis now c.jti c.exp }, true)

/-! ## Relational data model (src/auth/model.rs, src/auth/queries.rs,
src/auth/repo.rs). Timestamps and the activity flag of the Rust User row are
never read by the modelled operations and are omitted. -/

/-- User row (src/auth/model.rs). -/
structure User where
  id : Nat
  username : String
  role : Option String
  status : String
deriving Repr, DecidableEq

/-- webauthn_sessions row (src/auth/model.rs, WebAuthnSession). -/
structure WebAuthnSession where
  id : Nat
  userId : Nat
  data : String
  purpose : String
  createdAt : Int
  expiresAt : Int
deriving Repr, DecidableEq

/-- Database state for the join lookup: the users and webauthn_sessions tables. -/
structure Db where
  users : List User
  sessions : List WebAuthnSession
deriving Repr, DecidableEq

/-- The WHERE clause of users::SELECT_WITH_SESSION (src/auth/queries.rs lines
14-20) together with its INNER JOIN condition: u.id = ws.user_id AND
u.username = $1 AND ws.id = $2 AND ws.purpose = $3. No predicate mentions
expires_at. -/
def sessionRowMatches (u : User) (sessionId : Nat) (username purpose : String)
    (ws : WebAuthnSession) : Bool :=
  u.id == ws.userId && u.username == username && ws.id == sessionId &&
    ws.purpose == purpose

/-- Result set of users::SELECT_WITH_SESSION over the database state. -/
def joinRows (db : Db) (sessionId : Nat) (username purpose : String) :
    List (User × WebAuthnSession) :=
  db.users.flatMap fun u =>
    (db.sessions.filter (sessionRowMatches u sessionId username purpose)).map
      fun ws => (u, ws)

/-- Repository::get_user_and_session (src/auth/repo.rs lines 120-150): run the
joined query with query_opt semantics (no row is Not-Found; more than one row
is an unexpected store error). -/
def getUserAndSession (db : Db) (sessionId : Nat) (username purpose : String) :
    Except AppError (User × WebAuthnSession) :=
  match joinRows db sessionId username purpose with
  | [] => .error (.notFound "User or session not found")
  | [row] => .ok row
  | _ => .error (.internalServer "unexpected number of rows")

/-- Rows of users::SELECT_BY_USERNAME (src/auth/queries.rs line 2). -/
def usersByUsername (users : List User) (username : String) : List User :=
  users.filter fun u => u.username == username

/-- Repository::get_user_by_username (src/auth/repo.rs lines 106-118), with
query_opt semantics. -/
def getUserByUsername (users : List User) (username : String) :
    Except AppError User :=
  match usersByUsername users username with
  | [] => .error (.notFound "Username not found")
  | [u] => .ok u
  | _ => .error (.internalServer "unexpected number of rows")

/-- Modelled from the spec: the status column default applied by the database
schema on INSERT INTO users (the migration files are not under src/). Per §3 of
the spec a user is pending until a credential is attached. -/
def defaultUserStatus : String := "pending"

/-- Repository::create_user (src/auth/repo.rs lines 65-104): look the username
up; an active user is Already-Exists, any other existing user is returned
unchanged; only when the lookup is Not-Found is a fresh row inserted (with the
schema default status). newId models the generated primary key. -/
def createUser (users : List User) (newId : Nat) (username : String)
    (role : Option String) : Except AppError User × List User :=
  match getUserByUsername users username with
  | .ok u =>
    if u.status == "active" then
      (.error (.alreadyExists "Username already exists"), users)
    else
      (.ok u, users)
  | .error (.notFound _) =>
    let newUser : User :=
      { id := newId, username := username, role := role, status := defaultUserStatus }
    (.ok newUser, users ++ [newUser])
  | .error e => (.error e, users)

/-- credentials row (src/auth/queries.rs, credentials::INSERT): credential id
bytes, owning user, opaque serialized passkey. -/
structure Credential where
  id : List Nat
  userId : Nat
  passkey : String
deriving Repr, DecidableEq

/-- State touched by Repository::complete_registration: the users and
credentials tables. -/
structure PgState where
  users : List User
  credentials : List Credential
deriving Repr, DecidableEq

/-- users::UPDATE_STATUS_ACTIVE (src/auth/queries.rs line 12): set status to
active on every row whose username matches. -/
def activateUser (users : List User) (username : String) : List User :=
  users.map fun u =>
    if u.username == username then { u with status := "active" } else u

/-- Repository::complete_registration (src/auth/repo.rs lines 263-284): open a
transaction, insert the credential, activate the user, commit. Each store step
may fail (injected as an optional error); PostgreSQL transaction semantics make
the effects visible only at a successful commit and roll every effect back
otherwise. -/
def completeRegistration (st : PgState) (username : String) (cred : Credential)
    (insertErr updateErr commitErr : Option AppError) :
    Except AppError Unit × PgState :=
  match insertErr with
  | some e => (.error e, st)
  | none =>
    match updateErr with
    | some e => (.error e, st)
    | none =>
      match commitErr with
      | some e => (.error e, st)
      | none =>
        (.ok (),
         { users := activateUser st.users username,
           credentials := st.credentials ++ [cred] })

/-! ## Finish flows (src/auth/service.rs). The outcomes of the external steps
(uuid parse, repository lookup, the two JSON deserializations, the WebAuthn
engine verification, and the follow-up repository write) are inputs; the Bool
output records whether cleanup_session (src/auth/service.rs lines 266-273) was
spawned for the consumed session. -/

/-- Step outcomes of AuthService::finish_register (src/auth/service.rs lines
70-94), in source order. -/
structure FinishRegisterSteps where
  sessionIdParse : Except AppError Nat
  lookup : Except AppError (User × WebAuthnSession)
  parsePasskeyRegistration : Except AppError Unit
  parseClientCredential : Except AppError Unit
  verifyRegistration : Except AppError Unit
  completeRegistrationStep : Except AppError Unit

/-- AuthService::finish_register (src/auth/service.rs lines 70-94): each fallible
step propagates its error with the question-mark operator; cleanup_session is
spawned only after complete_registration has succeeded. -/
def finishRegister (s : FinishRegisterSteps) : Except AppError String × Bool :=
  match s.sessionIdParse with
  | .error e => (.error e, false)
  | .ok _ =>
  match s.lookup with
  | .error e => (.error e, false)
  | .ok _ =>
  match s.parsePasskeyRegistration with
  | .error e => (.error e, false)
  | .ok _ =>
  match s.parseClientCredential with
  | .error e => (.error e, false)
  | .ok _ =>
  match s.verifyRegistration with
  | .error e => (.error e, false)
  | .ok _ =>
  match s.completeRegistrationStep with
  | .error e => (.error e, false)
  | .ok _ => (.ok "Registration completed successfully!", true)

/-- Outcome of Webauthn::finish_passkey_authentication as consumed by
finish_login: credential id, new counter, needs_update flag. -/
structure AuthnResult where
  credId : List Nat
  counter : Nat
  needsUpdate : Bool
deriving Repr, DecidableEq

/-- Step outcomes of AuthService::finish_login (src/auth/service.rs lines
111-149), in source order. -/
structure FinishLoginSteps where
  sessionIdParse : Except AppError Nat
  lookup : Except AppError (User × WebAuthnSession)
  parsePasskeyAuthentication : Except AppError Unit
  parseClientCredential : Except AppError Unit
  verifyAuthentication : Except AppError AuthnResult
  updateCredentialStep : Except AppError Unit

/-- AuthService::finish_login (src/auth/service.rs lines 111-149): after
verification, the counter update runs only when needs_update is set;
cleanup_session is spawned after these succeed, then the token pair is minted. -/
def finishLogin (s : FinishLoginSteps) (st : JwtState) (now : Int) :
    Except AppError TokenPair × Bool × JwtState :=
  match s.sessionIdParse with
  | .error e => (.error e, false, st)
  | .ok _ =>
  match s.lookup with
  | .error e => (.error e, false, st)
  | .ok (user, _) =>
  match s.parsePasskeyAuthentication with
  | .error e => (.error e, false, st)
  | .ok _ =>
  match s.parseClientCredential with
  | .error e => (.error e, false, st)
  | .ok _ =>
  match s.verifyAuthentication with
  | .error e => (.error e, false, st)
  | .ok result =>
  match (if result.needsUpdate then s.updateCredentialStep else .ok ()) with
  | .error e => (.error e, false, st)
  | .ok _ =>
    let (pair, st2) := generateTokenPair st now user.id user.username user.role
    (.ok pair, true, st2)

/-! ## Theorems -/

/-- C3: for revoke(jti, exp) the claim says the revocation TTL equals
max(1, exp − now) seconds. At exp = 1000, now = 900 (100 seconds of remaining
lifetime) the code computes a TTL of 1000 seconds — the absolute expiry
timestamp, not the remaining lifetime — diverging from the claimed value 100.
The code own zero-guard branch (exp - now <= 0 gives 1) and the spec show the
intent; using exp instead of exp - now is a slip. -/
theorem blacklistTtl_uses_absolute_timestamp :
    blacklistTtl 1000 900 = 1000 ∧ max 1 (1000 - 900 : Int) = 100 ∧
      blacklistTtl 1000 900 ≠ max 1 (1000 - 900 : Int) := by
  refine ⟨by decide, by decide, by decide⟩

/-- C9 counterexample: the username "a b" contains only 2 non-whitespace
characters, yet BeginRequest validation accepts it, because the code checks the
byte length of the trimmed string (3 for "a b"), not the number of
non-whitespace characters. So the claim as stated is false. -/
theorem validateUsername_nonwhitespace_counterexample :
    countNonWhitespace ("a b".toList) = 2 ∧
      BeginRequest.validate { username := "a b".toList, role := none } = .ok () :=
  ⟨by decide, rfl⟩

/-- C9 amended: begin-registration and begin-login reject a username with
Bad-Request exactly when its trimmed form (leading and trailing whitespace
removed) is shorter than 3 UTF-8 bytes; interior whitespace counts toward the
length. -/
theorem beginRequest_validate_trimmed_length (r : BeginRequest) :
    (byteLen (rustTrim r.username) < 3 →
      ∃ msg, BeginRequest.validate r = .error (.badRequest msg)) ∧
    (3 ≤ byteLen (rustTrim r.username) → BeginRequest.validate r = .ok ()) := by
  unfold BeginRequest.validate validateUsername validateText
  cases hE : (rustTrim r.username).isEmpty with
  | true =>
    have h0 : rustTrim r.username = [] := by
      simpa [List.isEmpty_iff] using hE
    refine ⟨fun _ => ⟨"Username cannot be empty", by simp [hE]⟩, fun h3 => ?_⟩
    rw [h0] at h3
    simp [byteLen] at h3
  | false =>
    by_cases hlen : byteLen (rustTrim r.username) < 3
    · exact ⟨fun _ => ⟨"Username must be at least 3 characters", by simp [hE, hlen]⟩,
        fun h3 => absurd h3 (by omega)⟩
    · exact ⟨fun h => absurd h hlen, fun _ => by simp [hE, hlen]⟩

/-- C9 amended, witness: "ab" (2 trimmed bytes) is rejected and "abc" (3
trimmed bytes) is accepted. -/
theorem beginRequest_validate_trimmed_length_witness :
    (∃ msg, BeginRequest.validate { username := "ab".toList, role := none } =
      .error (.badRequest msg)) ∧
    BeginRequest.validate { username := "abc".toList, role := none } = .ok () :=
  ⟨(beginRequest_validate_trimmed_length _).1 (by decide),
   (beginRequest_validate_trimmed_length _).2 (by decide)⟩

/-- C6 counterexample: for the 32-byte secret 0,1,...,31, startup succeeds and
installs the very same 32 bytes both as the Ed25519 signing-key seed for access
tokens and as the HS256 secret for refresh tokens — the two signing contexts
share their key material, so they are not independent. -/
theorem jwtNew_shared_key_counterexample :
    jwtNew (List.range 32) =
      some { accessSigningSeed := List.range 32, refreshSecret := List.range 32 } := by
  decide

/-- C6 amended: the symmetric secret is validated at startup to be at least 32
bytes with the process failing fast otherwise, and the two signing contexts use
different algorithms but NOT independent key material: the Ed25519 signing key
for access tokens is seeded with the same first 32 secret bytes that serve as
the HMAC secret for refresh tokens. -/
theorem jwtNew_spec (secret : List Nat) :
    (secret.length < 32 → jwtNew secret = none) ∧
    (32 ≤ secret.length →
      jwtNew secret =
        some { accessSigningSeed := secret.take 32, refreshSecret := secret.take 32 }) := by
  constructor
  · intro h
    simp [jwtNew, h]
  · intro h
    have hmin : min secret.length 32 = 32 := Nat.min_eq_right h
    simp [jwtNew, jwtSymmetricKey, Nat.not_lt.mpr h, hmin]

/-- C6 amended, witness: a 31-byte secret fails startup; a 32-byte secret
yields the shared key material. -/
theorem jwtNew_spec_witness :
    jwtNew (List.range 31) = none ∧
    jwtNew (List.range 32) =
      some { accessSigningSeed := (List.range 32).take 32,
             refreshSecret := (List.range 32).take 32 } :=
  ⟨(jwtNew_spec _).1 (by decide), (jwtNew_spec _).2 (by decide)⟩

/-- C8: logout always returns success, no matter which token is presented; a
revocation write is issued exactly when the token is nonempty and passes
refresh validation; and when that write fails, the failure is swallowed and no
state change is recorded. -/
theorem logout_never_fails (st : JwtState) (now : Int) (t : RefreshToken)
    (writeFails : Bool) :
    (logout st now t writeFails).1 = .ok "Logout completed successfully!" ∧
    ((logout st now t writeFails).2.2 = true ↔
      t ≠ .empty ∧ exceptIsOk (validateRefresh st.redis now t) = true) ∧
    (writeFails = true → (logout st now t writeFails).2.1 = st) := by
  unfold logout
  by_cases hE : t = .empty
  · subst hE
    simp [exceptIsOk]
  · have hB : (t == .empty) = false := by
      cases t <;> simp_all
    cases hv : validateRefresh st.redis now t with
    | error e => simp [hB, hv, exceptIsOk, hE]
    | ok c => cases writeFails <;> simp [hB, hv, exceptIsOk, hE]

/-- C8 witness: logging out with a valid, un-revoked token while the
revocation write fails still succeeds and leaves the state unchanged. -/
theorem logout_never_fails_witness :
    (logout ⟨⟨[]⟩, 5⟩ 0 (.signed ⟨1, "alice", none, 3, 0, 100⟩) true).2.1 =
      ⟨⟨[]⟩, 5⟩ :=
  (logout_never_fails ⟨⟨[]⟩, 5⟩ 0 (.signed ⟨1, "alice", none, 3, 0, 100⟩) true).2.2 rfl

/-- C2 counterexample: a finish-registration call whose session lookup
succeeds but whose cryptographic verification fails returns the verification
error WITHOUT deleting the session — cleanup_session is only reached on the
all-success path, so the claim as stated is false. -/
theorem finishRegister_no_cleanup_on_failed_verification :
    (let s : FinishRegisterSteps :=
      { sessionIdParse := .ok 7,
        lookup := .ok ({ id := 1, username := "alice", role := none, status := "pending" },
                       { id := 7, userId := 1, data := "d", purpose := "registration",
                         createdAt := 0, expiresAt := 100 }),
        parsePasskeyRegistration := .ok (),
        parseClientCredential := .ok (),
        verifyRegistration := .error (.internalServer "verification failed"),
        completeRegistrationStep := .ok () }
     exceptIsOk s.lookup = true ∧ (finishRegister s).2 = false) :=
  ⟨rfl, rfl⟩

/-- C2 amended: in both finish-registration and finish-login the consumed
session is deleted (asynchronously, best-effort) exactly when the whole call
succeeds — lookup, both deserializations, cryptographic verification and the
subsequent repository write all passing; on any failure, including a failed
verification, the session is not deleted and survives until its TTL. -/
theorem finish_cleanup_iff_success (sR : FinishRegisterSteps)
    (sL : FinishLoginSteps) (st : JwtState) (now : Int) :
    ((finishRegister sR).2 = true ↔ exceptIsOk (finishRegister sR).1 = true) ∧
    ((finishLogin sL st now).2.1 = true ↔
      exceptIsOk (finishLogin sL st now).1 = true) := by
  constructor
  · obtain ⟨a, b, c, d, e, f⟩ := sR
    cases a <;> cases b <;> cases c <;> cases d <;> cases e <;> cases f <;>
      simp [finishRegister, exceptIsOk]
  · obtain ⟨a, b, c, d, e, f⟩ := sL
    cases a <;> rcases b with _ | ⟨u, ws⟩ <;> cases c <;> cases d <;>
      rcases e with _ | ⟨cid, ctr, nu⟩ <;> cases f
    all_goals try cases nu
    all_goals simp [finishLogin, exceptIsOk]

/-- C2 amended, witness: an all-success finish-login deletes its session. -/
theorem finish_cleanup_iff_success_witness :
    (finishLogin
      { sessionIdParse := .ok 7,
        lookup := .ok ({ id := 1, username := "alice", role := none, status := "active" },
                       { id := 7, userId := 1, data := "d", purpose := "login",
                         createdAt := 0, expiresAt := 100 }),
        parsePasskeyAuthentication := .ok (),
        parseClientCredential := .ok (),
        verifyAuthentication := .ok { credId := [1], counter := 2, needsUpdate := false },
        updateCredentialStep := .ok () } ⟨⟨[]⟩, 0⟩ 0).2.1 = true :=
  (finish_cleanup_iff_success
    { sessionIdParse := .ok 7, lookup := .ok (⟨1, "alice", none, "active"⟩,
        ⟨7, 1, "d", "registration", 0, 100⟩),
      parsePasskeyRegistration := .ok (), parseClientCredential := .ok (),
      verifyRegistration := .ok (), completeRegistrationStep := .ok () }
    { sessionIdParse := .ok 7,
      lookup := .ok ({ id := 1, username := "alice", role := none, status := "active" },
                     { id := 7, userId := 1, data := "d", purpose := "login",
                       createdAt := 0, expiresAt := 100 }),
      parsePasskeyAuthentication := .ok (),
      parseClientCredential := .ok (),
      verifyAuthentication := .ok { credId := [1], counter := 2, needsUpdate := false },
      updateCredentialStep := .ok () } ⟨⟨[]⟩, 0⟩ 0).2.mpr rfl

/-- C5: complete_registration is atomic. When it succeeds, the credential row
is inserted and the user rows with the given username are active; when any
step (credential insert, activation update, commit) fails, the state is exactly
the initial one — no partial effect is observable. -/
theorem completeRegistration_atomic (st : PgState) (username : String)
    (cred : Credential) (insertErr updateErr commitErr : Option AppError) :
    (exceptIsOk (completeRegistration st username cred insertErr updateErr commitErr).1 = true →
      (completeRegistration st username cred insertErr updateErr commitErr).2 =
        { users := activateUser st.users username,
          credentials := st.credentials ++ [cred] } ∧
      cred ∈ (completeRegistration st username cred insertErr updateErr commitErr).2.credentials ∧
      (∀ u ∈ (completeRegistration st username cred insertErr updateErr commitErr).2.users,
        u.username = username → u.status = "active")) ∧
    (exceptIsOk (completeRegistration st username cred insertErr updateErr commitErr).1 = false →
      (completeRegistration st username cred insertErr updateErr commitErr).2 = st) := by
  cases insertErr with
  | some e => simp [completeRegistration, exceptIsOk]
  | none =>
    cases updateErr with
    | some e => simp [completeRegistration, exceptIsOk]
    | none =>
      cases commitErr with
      | some e => simp [completeRegistration, exceptIsOk]
      | none =>
        refine ⟨fun _ => ⟨rfl, by simp [completeRegistration], fun u hu hname => ?_⟩,
          fun h => by simp [completeRegistration, exceptIsOk] at h⟩
        simp only [completeRegistration, activateUser, List.mem_map] at hu
        obtain ⟨u0, _, rfl⟩ := hu
        by_cases h0 : u0.username = username
        · simp [h0]
        · simp [h0] at hname ⊢

/-- C5 witness: a run with no step failure activates the user and stores the
credential. -/
theorem completeRegistration_atomic_witness :
    (completeRegistration
      { users := [{ id := 1, username := "alice", role := none, status := "pending" }],
        credentials := [] } "alice" { id := [9], userId := 1, passkey := "pk" }
      none none none).2 =
      { users := [{ id := 1, username := "alice", role := none, status := "active" }],
        credentials := [{ id := [9], userId := 1, passkey := "pk" }] } :=
  ((completeRegistration_atomic
      { users := [{ id := 1, username := "alice", role := none, status := "pending" }],
        credentials := [] } "alice" { id := [9], userId := 1, passkey := "pk" }
      none none none).1 rfl).1

/-- C7: create_user is idempotent-ish. When the username lookup finds exactly
one row: an active user yields Already-Exists with the table unchanged, and a
non-active (pending) user is returned unchanged with the table unchanged (no
duplicate row); when no row matches, a fresh user with the schema-default
pending status is inserted and returned. -/
theorem createUser_spec (users : List User) (newId : Nat) (username : String)
    (role : Option String) :
    (∀ u, usersByUsername users username = [u] → u.status = "active" →
      createUser users newId username role =
        (.error (.alreadyExists "Username already exists"), users)) ∧
    (∀ u, usersByUsername users username = [u] → u.status ≠ "active" →
      createUser users newId username role = (.ok u, users)) ∧
    (usersByUsername users username = [] →
      createUser users newId username role =
        (.ok { id := newId, username := username, role := role, status := "pending" },
         users ++ [{ id := newId, username := username, role := role, status := "pending" }])) := by
  refine ⟨fun u hu hact => ?_, fun u hu hact => ?_, fun hnone => ?_⟩
  · simp [createUser, getUserByUsername, hu, hact]
  · simp [createUser, getUserByUsername, hu, hact]
  · simp [createUser, getUserByUsername, hnone, defaultUserStatus]

/-- C7 witness: resuming a pending "alice" returns the same row without a
duplicate; an active "alice" is Already-Exists; an absent "bob" is inserted
pending. -/
theorem createUser_spec_witness :
    createUser [{ id := 1, username := "alice", role := none, status := "pending" }]
      2 "alice" none =
      (.ok { id := 1, username := "alice", role := none, status := "pending" },
       [{ id := 1, username := "alice", role := none, status := "pending" }]) ∧
    createUser [{ id := 1, username := "alice", role := none, status := "active" }]
      2 "alice" none =
      (.error (.alreadyExists "Username already exists"),
       [{ id := 1, username := "alice", role := none, status := "active" }]) ∧
    createUser [{ id := 1, username := "alice", role := none, status := "pending" }]
      2 "bob" none =
      (.ok { id := 2, username := "bob", role := none, status := "pending" },
       [{ id := 1, username := "alice", role := none, status := "pending" },
        { id := 2, username := "bob", role := none, status := "pending" }]) :=
  ⟨(createUser_spec _ 2 "alice" none).2.1
      { id := 1, username := "alice", role := none, status := "pending" }
      (by decide) (by decide),
   (createUser_spec _ 2 "alice" none).1
      { id := 1, username := "alice", role := none, status := "active" }
      (by decide) (by decide),
   (createUser_spec _ 2 "bob" none).2.2 (by decide)⟩

/-- Characterization of the rows returned by users::SELECT_WITH_SESSION: a
(user, session) pair appears exactly when both rows exist, the join condition
holds, and all three WHERE predicates match. -/
theorem mem_joinRows {db : Db} {sid : Nat} {un p : String} {u : User}
    {ws : WebAuthnSession} :
    (u, ws) ∈ joinRows db sid un p ↔
      u ∈ db.users ∧ ws ∈ db.sessions ∧ u.id = ws.userId ∧ u.username = un ∧
        ws.id = sid ∧ ws.purpose = p := by
  simp only [joinRows, List.mem_flatMap, List.mem_map, List.mem_filter,
    sessionRowMatches, Bool.and_eq_true, beq_iff_eq, Prod.mk.injEq]
  constructor
  · rintro ⟨u', hu', ws', ⟨hws', ⟨⟨h1, h2⟩, h3⟩, h4⟩, rfl, rfl⟩
    exact ⟨hu', hws', h1, h2, h3, h4⟩
  · rintro ⟨hu, hws, h1, h2, h3, h4⟩
    exact ⟨u, hu, ws, ⟨hws, ⟨⟨h1, h2⟩, h3⟩, h4⟩, rfl, rfl⟩

/-- C4: get_user_and_session succeeds only on a joined row matching all three
predicates (session id, username, purpose) and fails Not-Found when no row
matches; in particular a session stored with purpose registration can never be
returned by a lookup with purpose login, whatever the id and username. -/
theorem getUserAndSession_requires_all_predicates (db : Db) (sid : Nat)
    (un p : String) :
    (∀ u ws, getUserAndSession db sid un p = .ok (u, ws) →
      u ∈ db.users ∧ ws ∈ db.sessions ∧ u.id = ws.userId ∧ u.username = un ∧
        ws.id = sid ∧ ws.purpose = p) ∧
    (joinRows db sid un p = [] →
      getUserAndSession db sid un p =
        .error (.notFound "User or session not found")) ∧
    ((∀ ws ∈ db.sessions, ws.id = sid → ws.purpose = "registration") →
      getUserAndSession db sid un "login" =
        .error (.notFound "User or session not found")) := by
  refine ⟨fun u ws h => ?_, fun h => by simp [getUserAndSession, h], fun hreg => ?_⟩
  · have hmem : (u, ws) ∈ joinRows db sid un p := by
      rcases hj : joinRows db sid un p with _ | ⟨r, _ | ⟨r2, tl2⟩⟩
      · simp [getUserAndSession, hj] at h
      · simp [getUserAndSession, hj] at h
        simp [hj, h]
      · simp [getUserAndSession, hj] at h
    exact mem_joinRows.mp hmem
  · have hempty : joinRows db sid un "login" = [] := by
      rw [List.eq_nil_iff_forall_not_mem]
      rintro ⟨u, ws⟩ hmem
      rw [mem_joinRows] at hmem
      obtain ⟨_, hws, _, _, hid, hp⟩ := hmem
      have hr := hreg ws hws hid
      rw [hp] at hr
      exact absurd hr (by decide)
    simp [getUserAndSession, hempty]

/-- C4 witness: with one registration session for alice, the matching lookup
returns a row satisfying all predicates, a lookup under a wrong username finds
no row, and the same session looked up with purpose login is Not-Found. -/
theorem getUserAndSession_requires_all_predicates_witness :
    ((⟨1, "alice", none, "pending"⟩ : User) ∈
        (Db.mk [⟨1, "alice", none, "pending"⟩]
          [⟨7, 1, "d", "registration", 0, 100⟩]).users ∧
      (⟨7, 1, "d", "registration", 0, 100⟩ : WebAuthnSession) ∈
        (Db.mk [⟨1, "alice", none, "pending"⟩]
          [⟨7, 1, "d", "registration", 0, 100⟩]).sessions ∧
      (1 : Nat) = 1 ∧ "alice" = "alice" ∧ (7 : Nat) = 7 ∧
      "registration" = "registration") ∧
    getUserAndSession
        (Db.mk [⟨1, "alice", none, "pending"⟩]
          [⟨7, 1, "d", "registration", 0, 100⟩]) 7 "bob" "registration" =
      .error (.notFound "User or session not found") ∧
    getUserAndSession
        (Db.mk [⟨1, "alice", none, "pending"⟩]
          [⟨7, 1, "d", "registration", 0, 100⟩]) 7 "alice" "login" =
      .error (.notFound "User or session not found") :=
  ⟨(getUserAndSession_requires_all_predicates
      (Db.mk [⟨1, "alice", none, "pending"⟩] [⟨7, 1, "d", "registration", 0, 100⟩])
      7 "alice" "registration").1 _ _ rfl,
   (getUserAndSession_requires_all_predicates
      (Db.mk [⟨1, "alice", none, "pending"⟩] [⟨7, 1, "d", "registration", 0, 100⟩])
      7 "bob" "registration").2.1 (by decide),
   (getUserAndSession_requires_all_predicates
      (Db.mk [⟨1, "alice", none, "pending"⟩] [⟨7, 1, "d", "registration", 0, 100⟩])
      7 "alice" "whatever").2.2 (by decide)⟩

/-- The join filter is insensitive to rewriting the expires_at column. -/
theorem filter_sessionRowMatches_map_expiry (u : User) (sid : Nat)
    (un p : String) (f : Int → Int) (sessions : List WebAuthnSession) :
    (sessions.map fun ws => { ws with expiresAt := f ws.expiresAt }).filter
        (sessionRowMatches u sid un p) =
      (sessions.filter (sessionRowMatches u sid un p)).map
        fun ws => { ws with expiresAt := f ws.expiresAt } := by
  induction sessions with
  | nil => rfl
  | cons ws tl ih =>
    have hsame : sessionRowMatches u sid un p { ws with expiresAt := f ws.expiresAt } =
        sessionRowMatches u sid un p ws := rfl
    cases h : sessionRowMatches u sid un p ws <;>
      simp [List.filter_cons, hsame, h, ih]

/-- C10: session expiry is never enforced at lookup. Rewriting every expires_at
value (for example moving all of them into the past) changes the join result
only in that field, never in which rows are returned; concretely, when the
unique row matching (session id, username, purpose) has its expires_at before
the current time, the lookup still returns it. -/
theorem getUserAndSession_ignores_expiry (f : Int → Int) (db : Db) (sid : Nat)
    (un p : String) (u : User) (ws : WebAuthnSession) (now : Int) :
    (joinRows
        { db with sessions := db.sessions.map fun s => { s with expiresAt := f s.expiresAt } }
        sid un p =
      (joinRows db sid un p).map fun r => (r.1, { r.2 with expiresAt := f r.2.expiresAt })) ∧
    (joinRows db sid un p = [(u, ws)] → ws.expiresAt < now →
      getUserAndSession db sid un p = .ok (u, ws)) := by
  constructor
  · show joinRows (Db.mk db.users _) sid un p = _
    simp only [joinRows]
    induction db.users with
    | nil => rfl
    | cons u0 tl ih =>
      simp only [List.flatMap_cons, List.map_append, ih]
      rw [filter_sessionRowMatches_map_expiry]
      simp [List.map_map, Function.comp_def]
  · intro hrow _
    simp [getUserAndSession, hrow]

/-- C10 witness: a session that expired at time 100 is still returned in full
by a matching lookup at time 1000. -/
theorem getUserAndSession_ignores_expiry_witness :
    getUserAndSession
        (Db.mk [⟨1, "alice", none, "pending"⟩]
          [⟨7, 1, "d", "registration", 0, 100⟩]) 7 "alice" "registration" =
      .ok (⟨1, "alice", none, "pending"⟩, ⟨7, 1, "d", "registration", 0, 100⟩) :=
  (getUserAndSession_ignores_expiry id
      (Db.mk [⟨1, "alice", none, "pending"⟩] [⟨7, 1, "d", "registration", 0, 100⟩])
      7 "alice" "registration" ⟨1, "alice", none, "pending"⟩
      ⟨7, 1, "d", "registration", 0, 100⟩ 1000).2 (by decide) (by decide)

/-- A jti absent from every live entry is not blacklisted. -/
theorem isBlacklistedAt_eq_false_of_ne {s : RedisState} {now : Int} {jti : Nat}
    (h : ∀ e ∈ s.blacklist, e.1 ≠ jti) : isBlacklistedAt s now jti = false := by
  simp only [isBlacklistedAt, List.any_eq_false]
  intro e he
  simp [h e he]

/-- C1: refresh tokens are single-use under rotation. Starting from a state
whose blacklist only holds jtis below the fresh-jti counter (every jti ever
minted is below it), take a signed, un-revoked refresh token. Refreshing at
time t1 succeeds and yields a brand-new pair whose refresh jti is fresh; a
second refresh with the ORIGINAL token at any later time t2 within the
original lifetime fails Unauthorized with "Token has been revoked"; and a
refresh with the NEWLY issued token at t2 (within its own lifetime) succeeds. -/
theorem refresh_rotation_single_use (st : JwtState) (c : RefreshTokenClaims)
    (t1 t2 : Int)
    (hinv : ∀ e ∈ st.redis.blacklist, e.1 < st.nextJti)
    (hjti : c.jti < st.nextJti)
    (hfresh : isBlacklistedAt st.redis t1 c.jti = false)
    (hpos : 1 ≤ t1) (h12 : t1 ≤ t2) (hexp : t2 ≤ c.exp)
    (hnew : t2 ≤ t1 + refreshTokenDuration) :
    ∃ pair st2,
      refresh st t1 (.signed c) = .ok (pair, st2) ∧
      refresh st2 t2 (.signed c) =
        .error (.unauthorized "Token has been revoked") ∧
      ∃ c2, pair.refreshToken = .signed c2 ∧ c2.jti ≠ c.jti ∧
        exceptIsOk (refresh st2 t2 pair.refreshToken) = true := by
  have hrd : refreshTokenDuration = 86400 := rfl
  have hlw : jwtLeeway = 60 := rfl
  have hd1 : decodeRefresh t1 (.signed c) = .ok c := by
    simp only [decodeRefresh]
    rw [if_neg (by omega)]
  have hv1 : validateRefresh st.redis t1 (.signed c) = .ok c := by
    simp [validateRefresh, hd1, hfresh]
  refine ⟨⟨⟨c.sub, c.username, c.role, t1, t1 + accessTokenDuration⟩,
           .signed ⟨c.sub, c.username, c.role, st.nextJti, t1,
             t1 + refreshTokenDuration⟩⟩,
          ⟨blacklistJti st.redis t1 c.jti c.exp, st.nextJti + 1⟩, ?_, ?_, ?_⟩
  · simp [refresh, hv1, generateTokenPair]
  · have httl : t2 < t1 + blacklistTtl c.exp t1 := by
      simp only [blacklistTtl]
      split <;> omega
    have hbl2 : isBlacklistedAt
        (blacklistJti st.redis t1 c.jti c.exp) t2 c.jti = true := by
      simp only [blacklistJti, redisSetEx, isBlacklistedAt, List.any_cons]
      simp [httl]
    have hd2 : decodeRefresh t2 (.signed c) = .ok c := by
      simp only [decodeRefresh]
      rw [if_neg (by omega)]
    simp [refresh, validateRefresh, hd2, hbl2]
  · refine ⟨_, rfl, by simp; omega, ?_⟩
    have hnb : isBlacklistedAt
        (blacklistJti st.redis t1 c.jti c.exp) t2 st.nextJti = false := by
      apply isBlacklistedAt_eq_false_of_ne
      intro e he
      simp only [blacklistJti, redisSetEx, List.mem_cons] at he
      rcases he with he | he
      · rw [he]
        simp
        omega
      · have := hinv e (List.mem_of_mem_filter he)
        omega
    have hd3 : decodeRefresh t2
        (.signed ⟨c.sub, c.username, c.role, st.nextJti, t1,
          t1 + refreshTokenDuration⟩) =
        .ok (⟨c.sub, c.username, c.role, st.nextJti, t1,
          t1 + refreshTokenDuration⟩ : RefreshTokenClaims) := by
      simp only [decodeRefresh]
      rw [if_neg (by simp only [refreshTokenDuration] at hnew ⊢; simp only [jwtLeeway]; omega)]
    simp [refresh, validateRefresh, hd3, hnb, exceptIsOk]

/-- C1 witness: with an empty blacklist and fresh-jti counter 5, rotating the
signed token with jti 3 at time 10 succeeds, rotating the same token again at
time 20 fails with the revocation error, and rotating the newly issued token at
time 20 succeeds. -/
theorem refresh_rotation_single_use_witness :
    ∃ pair st2,
      refresh ⟨⟨[]⟩, 5⟩ 10 (.signed ⟨1, "alice", none, 3, 0, 200⟩) =
        .ok (pair, st2) ∧
      refresh st2 20 (.signed ⟨1, "alice", none, 3, 0, 200⟩) =
        .error (.unauthorized "Token has been revoked") ∧
      ∃ c2, pair.refreshToken = .signed c2 ∧ c2.jti ≠ 3 ∧
        exceptIsOk (refresh st2 20 pair.refreshToken) = true :=
  refresh_rotation_single_use ⟨⟨[]⟩, 5⟩ ⟨1, "alice", none, 3, 0, 200⟩ 10 20
    (by simp) (by decide) (by decide) (by decide) (by decide) (by decide)
    (by decide)

end RsServer
